import Mathlib

/-!
Shallow embedding of the `kvm` crate (src/kvm/src/lib.rs), a safe wrapper
around the Linux KVM interface, together with proofs of the specified
properties.

Kernel interaction is modelled by passing the raw results of the underlying
`ioctl`/`open`/`mmap` calls (and the errno observed on failure) as explicit
parameters: each wrapper is then the pure function from those raw outcomes to
the value the Rust function returns.  Machine integers are modelled as `Int`
(raw `ioctl` results, which are signed) and `Nat` (unsigned fields); none of
the modelled computations can overflow their Rust types on the values the
kernel ABI permits, so no wrap-around is introduced.
-/

/-! ### Constants of the kernel ABI

Numeric values of the `KVM_EXIT_*` tags and of the errno codes used by
lib.rs, as fixed by the Linux KVM ABI (the `kvm_sys` bindings imported by the
crate) and by libc. -/

@[simp]
def KVM_EXIT_UNKNOWN : Nat := 0

@[simp]
def KVM_EXIT_EXCEPTION : Nat := 1

@[simp]
def KVM_EXIT_IO : Nat := 2

@[simp]
def KVM_EXIT_HYPERCALL : Nat := 3

@[simp]
def KVM_EXIT_DEBUG : Nat := 4

@[simp]
def KVM_EXIT_HLT : Nat := 5

@[simp]
def KVM_EXIT_MMIO : Nat := 6

@[simp]
def KVM_EXIT_IRQ_WINDOW_OPEN : Nat := 7

@[simp]
def KVM_EXIT_SHUTDOWN : Nat := 8

@[simp]
def KVM_EXIT_FAIL_ENTRY : Nat := 9

@[simp]
def KVM_EXIT_INTR : Nat := 10

@[simp]
def KVM_EXIT_SET_TPR : Nat := 11

@[simp]
def KVM_EXIT_TPR_ACCESS : Nat := 12

@[simp]
def KVM_EXIT_S390_SIEIC : Nat := 13

@[simp]
def KVM_EXIT_S390_RESET : Nat := 14

@[simp]
def KVM_EXIT_DCR : Nat := 15

@[simp]
def KVM_EXIT_NMI : Nat := 16

@[simp]
def KVM_EXIT_INTERNAL_ERROR : Nat := 17

@[simp]
def KVM_EXIT_OSI : Nat := 18

@[simp]
def KVM_EXIT_PAPR_HCALL : Nat := 19

@[simp]
def KVM_EXIT_S390_UCONTROL : Nat := 20

@[simp]
def KVM_EXIT_WATCHDOG : Nat := 21

@[simp]
def KVM_EXIT_S390_TSCH : Nat := 22

@[simp]
def KVM_EXIT_EPR : Nat := 23

@[simp]
def KVM_EXIT_SYSTEM_EVENT : Nat := 24

/-- Direction value of an in-port access, `KVM_EXIT_IO_IN` in the ABI. -/
@[simp]
def KVM_EXIT_IO_IN : Nat := 0

/-- Direction value of an out-port access, `KVM_EXIT_IO_OUT` in the ABI. -/
@[simp]
def KVM_EXIT_IO_OUT : Nat := 1

/-- libc errno for an invalid argument. -/
@[simp]
def EINVAL : Nat := 22

/-- libc errno for exhausted space, used by `VcpuFd::new` for mmap failure. -/
@[simp]
def ENOSPC : Nat := 28

/-! ### Kvm (the system handle) -/

/-- `Kvm::check_extension`: the wrapper over `check_extension_int`, whose raw
`ioctl(KVM_CHECK_EXTENSION)` result is the parameter `raw`.  The Rust code is
`self.check_extension_int(c) == 1`. -/
def check_extension (raw : Int) : Bool :=
  raw == 1

/-- `Kvm::get_vcpu_mmap_size`: `res` is the raw `ioctl(KVM_GET_VCPU_MMAP_SIZE)`
result and `errno` the OS error code observed when it failed.  The Rust code
is `if res > 0 { Ok(res as usize) } else { errno_result() }`. -/
def get_vcpu_mmap_size (res : Int) (errno : Nat) : Except Nat Nat :=
  if res > 0 then .ok res.toNat else .error errno

/-- `Kvm::get_nr_vcpus`: `raw` is the raw `check_extension_int(Cap::NrVcpus)`
result.  Returns the vcpu count together with whether the `warn!` path was
taken.  The Rust code matches `0 => 4`, `x if x > 0 => x as usize`,
`_ => { warn!(...); 4 }`. -/
def get_nr_vcpus (raw : Int) : Nat × Bool :=
  if raw = 0 then (4, false)
  else if raw > 0 then (raw.toNat, false)
  else (4, true)

/-! ### CpuId (wrapper for kvm_cpuid2)

The Rust struct stores a byte vector viewed as a `kvm_cpuid2` header (whose
count field is `nent`) followed by `allocated_len` entries.  The embedding
keeps the header count, the allocated entry buffer (entries abstracted as
`Nat`) and the remembered allocation length. -/

structure CpuId where
  nent : Nat
  entries : List Nat
  allocated_len : Nat
  deriving DecidableEq

/-- `CpuId::new(array_len)`: zero-filled buffer for `array_len` entries, with
the header count `nent` initialized to `array_len`. -/
def CpuId.new (array_len : Nat) : CpuId :=
  { nent := array_len
    entries := List.replicate array_len 0
    allocated_len := array_len }

/-- `CpuId::mut_entries_slice`: if `nent` exceeds `allocated_len` it is first
written back down to `allocated_len`; the returned view then has length
`nent`.  Returns the view together with the updated `CpuId` (the side effect
on the header). -/
def CpuId.mut_entries_slice (c : CpuId) : List Nat × CpuId :=
  let nent := if c.nent > c.allocated_len then c.allocated_len else c.nent
  (c.entries.take nent, { c with nent := nent })

/-! ### VcpuFd creation and register transfer -/

/-- The state established by a successful `VcpuFd::new`: the owned per-CPU
descriptor and the mapped run block of the vm's cached size. -/
structure VcpuFdState where
  vcpu_fd : Nat
  run_mmap_size : Nat
  deriving DecidableEq

/-- `VcpuFd::new`: `run_size` is `vm.get_run_size()`, `vcpu_fd` the raw
`ioctl(KVM_CREATE_VCPU)` result, `errno` the OS error observed when that
failed, and `mmap_ok` whether `MemoryMapping::from_fd` succeeded.  The Rust
code returns `errno_result()` when `vcpu_fd < 0`, maps the mapping failure to
`Error::new(ENOSPC)`, and otherwise returns the constructed `VcpuFd`. -/
def VcpuFd.new (run_size : Nat) (vcpu_fd : Int) (errno : Nat) (mmap_ok : Bool) :
    Except Nat VcpuFdState :=
  if vcpu_fd < 0 then .error errno
  else if mmap_ok = false then .error ENOSPC
  else .ok { vcpu_fd := vcpu_fd.toNat, run_mmap_size := run_size }

/-- `VcpuFd::set_msrs`: `ret` is the raw `ioctl(KVM_SET_MSRS)` result (the
kernel returns the number of msr entries written, or a negative value on
failure) and `errno` the OS error observed on failure.  The Rust code is
`if ret < 0 { errno_result() } else { Ok(()) }`; the count is dropped. -/
def set_msrs (ret : Int) (errno : Nat) : Except Nat Unit :=
  if ret < 0 then .error errno else .ok ()

/-! ### The mapped kvm_run control block and VcpuFd::run

`run` reads the `exit_reason` tag of the mapped `kvm_run` structure and then
interprets only the union payload that the tag selects.  The embedding keeps
both payloads in the state; `run` reads just the selected one, as the Rust
code does. -/

/-- The `io` payload of the `kvm_run` union: direction, size, port, count and
data_offset fields (u8, u8, u16, u32, u64 in the ABI). -/
structure KvmRunIo where
  direction : Nat
  size : Nat
  port : Nat
  count : Nat
  data_offset : Nat
  deriving DecidableEq

/-- The `mmio` payload of the `kvm_run` union: phys_addr, the fixed inline
`data` buffer (`[u8; 8]` in the ABI), len and is_write fields. -/
structure KvmRunMmio where
  phys_addr : Nat
  data : List Nat
  len : Nat
  is_write : Nat
  deriving DecidableEq

/-- The parts of the mmap'd `kvm_run` control block that `VcpuFd::run`
reads. -/
structure KvmRun where
  exit_reason : Nat
  io : KvmRunIo
  mmio : KvmRunMmio
  deriving DecidableEq

/-- `enum VcpuExit`: a reason why a VCPU exited.  The I/O data views borrow
the mapped run block and are represented by their start offset within the
block and their length, exactly the data the Rust code builds the slice from
(`run_start.offset(data_offset)` and `count * size`); the MMIO views are the
inline data buffer truncated to `len`. -/
inductive VcpuExit where
  | IoOut (port : Nat) (data_offset : Nat) (data_len : Nat)
  | IoIn (port : Nat) (data_offset : Nat) (data_len : Nat)
  | MmioRead (addr : Nat) (data : List Nat)
  | MmioWrite (addr : Nat) (data : List Nat)
  | Unknown
  | Exception
  | Hypercall
  | Debug
  | Hlt
  | IrqWindowOpen
  | Shutdown
  | FailEntry
  | Intr
  | SetTpr
  | TprAccess
  | S390Sieic
  | S390Reset
  | Dcr
  | Nmi
  | InternalError
  | Osi
  | PaprHcall
  | S390Ucontrol
  | Watchdog
  | S390Tsch
  | Epr
  | SystemEvent
  deriving DecidableEq

/-- The observable outcome of a `VcpuFd::run` call: a normal `Result`
(`Ok` exit or an `OsError` wrapping an errno), or a process panic.  Both the
explicit `panic!("unknown kvm exit reason")` and the slice-index panic of
`&mut mmio.data[..len]` for an out-of-range `len` are the `abort` outcome. -/
inductive RunOutcome where
  | ok (exit : VcpuExit)
  | osError (errno : Nat)
  | abort
  deriving DecidableEq

/-- Whether a run outcome is a normal `Ok` result. -/
def RunOutcome.isOk : RunOutcome → Bool
  | .ok _ => true
  | _ => false

/-- `VcpuFd::run`: `ret` is the raw `ioctl(KVM_RUN)` result, `errno` the OS
error observed when it failed, and `r` the contents of the mapped `kvm_run`
block when the ioctl returned.  The branch order follows the Rust `match` on
`run.exit_reason`; within the MMIO arm the slice `&mut mmio.data[..len]` is
taken (and can panic) before `is_write` is examined, as in the source. -/
def run (ret : Int) (errno : Nat) (r : KvmRun) : RunOutcome :=
  if ret = 0 then
    if r.exit_reason = KVM_EXIT_IO then
      let port := r.io.port
      let data_size := r.io.count * r.io.size
      if r.io.direction = KVM_EXIT_IO_IN then
        .ok (.IoIn port r.io.data_offset data_size)
      else if r.io.direction = KVM_EXIT_IO_OUT then
        .ok (.IoOut port r.io.data_offset data_size)
      else
        .osError EINVAL
    else if r.exit_reason = KVM_EXIT_MMIO then
      let len := r.mmio.len
      if len ≤ r.mmio.data.length then
        let data_slice := r.mmio.data.take len
        if r.mmio.is_write ≠ 0 then .ok (.MmioWrite r.mmio.phys_addr data_slice)
        else .ok (.MmioRead r.mmio.phys_addr data_slice)
      else .abort
    else if r.exit_reason = KVM_EXIT_UNKNOWN then .ok .Unknown
    else if r.exit_reason = KVM_EXIT_EXCEPTION then .ok .Exception
    else if r.exit_reason = KVM_EXIT_HYPERCALL then .ok .Hypercall
    else if r.exit_reason = KVM_EXIT_DEBUG then .ok .Debug
    else if r.exit_reason = KVM_EXIT_HLT then .ok .Hlt
    else if r.exit_reason = KVM_EXIT_IRQ_WINDOW_OPEN then .ok .IrqWindowOpen
    else if r.exit_reason = KVM_EXIT_SHUTDOWN then .ok .Shutdown
    else if r.exit_reason = KVM_EXIT_FAIL_ENTRY then .ok .FailEntry
    else if r.exit_reason = KVM_EXIT_INTR then .ok .Intr
    else if r.exit_reason = KVM_EXIT_SET_TPR then .ok .SetTpr
    else if r.exit_reason = KVM_EXIT_TPR_ACCESS then .ok .TprAccess
    else if r.exit_reason = KVM_EXIT_S390_SIEIC then .ok .S390Sieic
    else if r.exit_reason = KVM_EXIT_S390_RESET then .ok .S390Reset
    else if r.exit_reason = KVM_EXIT_DCR then .ok .Dcr
    else if r.exit_reason = KVM_EXIT_NMI then .ok .Nmi
    else if r.exit_reason = KVM_EXIT_INTERNAL_ERROR then .ok .InternalError
    else if r.exit_reason = KVM_EXIT_OSI then .ok .Osi
    else if r.exit_reason = KVM_EXIT_PAPR_HCALL then .ok .PaprHcall
    else if r.exit_reason = KVM_EXIT_S390_UCONTROL then .ok .S390Ucontrol
    else if r.exit_reason = KVM_EXIT_WATCHDOG then .ok .Watchdog
    else if r.exit_reason = KVM_EXIT_S390_TSCH then .ok .S390Tsch
    else if r.exit_reason = KVM_EXIT_EPR then .ok .Epr
    else if r.exit_reason = KVM_EXIT_SYSTEM_EVENT then .ok .SystemEvent
    else .abort
  else .osError errno

/-- The exit tags covered by the `match` in `VcpuFd::run`, in source order. -/
def knownExitTags : List Nat :=
  [ KVM_EXIT_IO , KVM_EXIT_MMIO , KVM_EXIT_UNKNOWN , KVM_EXIT_EXCEPTION ,
    KVM_EXIT_HYPERCALL , KVM_EXIT_DEBUG , KVM_EXIT_HLT ,
    KVM_EXIT_IRQ_WINDOW_OPEN , KVM_EXIT_SHUTDOWN , KVM_EXIT_FAIL_ENTRY ,
    KVM_EXIT_INTR , KVM_EXIT_SET_TPR , KVM_EXIT_TPR_ACCESS ,
    KVM_EXIT_S390_SIEIC , KVM_EXIT_S390_RESET , KVM_EXIT_DCR ,
    KVM_EXIT_NMI , KVM_EXIT_INTERNAL_ERROR , KVM_EXIT_OSI ,
    KVM_EXIT_PAPR_HCALL , KVM_EXIT_S390_UCONTROL , KVM_EXIT_WATCHDOG ,
    KVM_EXIT_S390_TSCH , KVM_EXIT_EPR , KVM_EXIT_SYSTEM_EVENT ]

/-! ### Concrete control-block states used by witnesses and counterexamples -/

/-- An all-zero io payload. -/
def io0 : KvmRunIo :=
  { direction := 0, size := 0, port := 0, count := 0, data_offset := 0 }

/-- An all-zero mmio payload with the fixed 8-byte inline buffer. -/
def mmio0 : KvmRunMmio :=
  { phys_addr := 0, data := List.replicate 8 0, len := 0, is_write := 0 }

/-- An in-port exit: 2 accesses of 2 bytes each on port 0x3f8, data at byte
offset 16 of the block. -/
def ioInRun : KvmRun :=
  { exit_reason := 2
    io := { direction := 0, size := 2, port := 0x3f8, count := 2, data_offset := 16 }
    mmio := mmio0 }

/-- An out-port exit: one byte on port 0x80 at byte offset 24 of the block. -/
def ioOutRun : KvmRun :=
  { exit_reason := 2
    io := { direction := 1, size := 1, port := 0x80, count := 1, data_offset := 24 }
    mmio := mmio0 }

/-- An exit with the I/O tag whose direction field is neither in nor out. -/
def ioBadDirRun : KvmRun :=
  { exit_reason := 2
    io := { io0 with direction := 2 }
    mmio := mmio0 }

/-- An MMIO write exit of 2 bytes at guest physical address 0x1000. -/
def mmioWriteRun : KvmRun :=
  { exit_reason := 6
    io := io0
    mmio := { phys_addr := 0x1000, data := [ 7, 9, 0, 0, 0, 0, 0, 0 ], len := 2, is_write := 1 } }

/-- An MMIO read exit of 4 bytes at guest physical address 0x2000. -/
def mmioReadRun : KvmRun :=
  { exit_reason := 6
    io := io0
    mmio := { phys_addr := 0x2000, data := List.replicate 8 0, len := 4, is_write := 0 } }

/-- An MMIO exit whose length field exceeds the 8-byte inline buffer. -/
def mmioLongRun : KvmRun :=
  { exit_reason := 6
    io := io0
    mmio := { mmio0 with len := 9 } }

/-- A halt exit. -/
def hltRun : KvmRun :=
  { exit_reason := 5, io := io0, mmio := mmio0 }

/-- A control block carrying a tag outside the known set. -/
def unknownTagRun : KvmRun :=
  { exit_reason := 25, io := io0, mmio := mmio0 }

/-! ### Properties of the system-handle queries -/

/-- C5: `check_extension` returns true if and only if the raw result of the
capability query equals exactly 1; any other raw result, such as 2 or -1,
yields false. -/
theorem check_extension_true_iff_raw_eq_one (raw : Int) :
    check_extension raw = true ↔ raw = 1 := by
  simp [check_extension]

/-- C3 counterexample: the raw result 0 is non-negative, yet
`get_vcpu_mmap_size` fails with the OsError instead of succeeding, refuting
the claim that every non-negative raw result succeeds. -/
theorem get_vcpu_mmap_size_zero_fails :
    (0 : Int) ≥ 0 ∧ get_vcpu_mmap_size 0 7 = .error 7 :=
  ⟨by decide, rfl⟩

/-- C3 (amended): `get_vcpu_mmap_size` fails with an OsError exactly when the
raw result of the sizing request is non-positive (zero included), and for
every strictly positive raw result it succeeds and returns that value as the
size. -/
theorem get_vcpu_mmap_size_spec (res : Int) (errno : Nat) :
    (res ≤ 0 → get_vcpu_mmap_size res errno = .error errno) ∧
    (0 < res → get_vcpu_mmap_size res errno = .ok res.toNat) := by
  unfold get_vcpu_mmap_size
  constructor
  · intro h
    rw [if_neg (by omega)]
  · intro h
    rw [if_pos h]

/-- C4: `get_nr_vcpus` maps a raw result of 0 to the documented default 4,
maps every negative raw result to 4 taking the warning path, and returns
every positive raw result verbatim; consequently it never returns less than
4 for any raw outcome ≤ 0 (and, being a total function, it never fails). -/
theorem get_nr_vcpus_spec (raw : Int) :
    (raw = 0 → get_nr_vcpus raw = (4, false)) ∧
    (raw < 0 → get_nr_vcpus raw = (4, true)) ∧
    (0 < raw → get_nr_vcpus raw = (raw.toNat, false)) ∧
    (raw ≤ 0 → 4 ≤ (get_nr_vcpus raw).1) := by
  unfold get_nr_vcpus
  refine ⟨fun h => ?_, fun h => ?_, fun h => ?_, fun h => ?_⟩
  · rw [if_pos h]
  · rw [if_neg (by omega), if_neg (by omega)]
  · rw [if_neg (by omega), if_pos h]
  · by_cases h0 : raw = 0
    · rw [if_pos h0]
    · rw [if_neg h0, if_neg (by omega)]

/-! ### Properties of CpuId -/

/-- C6: for a `CpuId` constructed with capacity `N` whose header count has
then been set to an arbitrary value `m` (also `m = N + K`),
`mut_entries_slice` returns a view of length `min m N` — hence of length at
most `N` — and, when the declared count exceeds `N`, writes the count back
down to `N` in the header. -/
theorem mut_entries_slice_clamps (N m : Nat) :
    (({ CpuId.new N with nent := m } : CpuId).mut_entries_slice.1.length = min m N) ∧
    (({ CpuId.new N with nent := m } : CpuId).mut_entries_slice.1.length ≤ N) ∧
    (({ CpuId.new N with nent := m } : CpuId).mut_entries_slice.2.nent = min m N) ∧
    (N < m → ({ CpuId.new N with nent := m } : CpuId).mut_entries_slice.2.nent = N) := by
  unfold CpuId.new CpuId.mut_entries_slice
  simp only [List.length_take, List.length_replicate]
  refine ⟨?_, ?_, ?_, fun h => ?_⟩ <;> split_ifs <;> simp <;> omega

/-! ### Properties of VcpuFd creation and register transfer -/

/-- C7: in `VcpuFd::new`, failure of the per-CPU-handle creation request
yields an OsError wrapping the raw OS code, while failure of the subsequent
control-block mapping yields the distinct resource-exhaustion-class error
(the fixed ENOSPC code, regardless of why the mapping failed); on success the
result holds both the handle and the mapping of the vm's cached size. -/
theorem vcpu_new_spec (run_size : Nat) (fd : Int) (errno : Nat) (mmap_ok : Bool) :
    (fd < 0 → VcpuFd.new run_size fd errno mmap_ok = .error errno) ∧
    (0 ≤ fd → mmap_ok = false → VcpuFd.new run_size fd errno mmap_ok = .error ENOSPC) ∧
    (0 ≤ fd → mmap_ok = true →
      VcpuFd.new run_size fd errno mmap_ok =
        .ok { vcpu_fd := fd.toNat, run_mmap_size := run_size }) := by
  unfold VcpuFd.new
  refine ⟨fun h => ?_, fun h1 h2 => ?_, fun h1 h2 => ?_⟩
  · rw [if_pos h]
  · rw [if_neg (by omega), if_pos h2]
  · rw [if_neg (by omega), if_neg (by simp [h2])]

/-- C8: `set_msrs` returns an OsError exactly when the raw result is negative
and plain unit success for every non-negative raw result — including raw
results smaller than the number of entries submitted — so the partial-write
count is never exposed to the caller. -/
theorem set_msrs_spec (ret : Int) (errno : Nat) :
    (ret < 0 → set_msrs ret errno = .error errno) ∧
    (0 ≤ ret → set_msrs ret errno = .ok ()) := by
  unfold set_msrs
  refine ⟨fun h => ?_, fun h => ?_⟩
  · rw [if_pos h]
  · rw [if_neg (by omega)]

/-! ### Properties of VcpuFd::run

Concrete evaluations of `run` on the sample control blocks, checking the
embedding against the behaviour of the source function. -/

example : run 0 0 ioInRun = .ok (.IoIn 0x3f8 16 4) := by decide

example : run 0 0 ioOutRun = .ok (.IoOut 0x80 24 1) := by decide

example : run 0 0 ioBadDirRun = .osError EINVAL := by decide

example : run 0 0 mmioWriteRun = .ok (.MmioWrite 0x1000 [ 7, 9 ]) := by decide

example : run 0 0 mmioReadRun = .ok (.MmioRead 0x2000 [ 0, 0, 0, 0 ]) := by decide

example : run 0 0 mmioLongRun = .abort := by decide

example : run 0 0 hltRun = .ok .Hlt := by decide

example : run 0 0 unknownTagRun = .abort := by decide

example : run (-1) 5 hltRun = .osError 5 := by decide

/-- The known exit tags are exactly the naturals below 25: the `KVM_EXIT_*`
values of the ABI are contiguous from 0 to 24. -/
theorem mem_knownExitTags_iff (t : Nat) : t ∈ knownExitTags ↔ t < 25 := by
  simp only [knownExitTags, KVM_EXIT_UNKNOWN , KVM_EXIT_EXCEPTION ,
    KVM_EXIT_IO , KVM_EXIT_HYPERCALL , KVM_EXIT_DEBUG , KVM_EXIT_HLT ,
    KVM_EXIT_MMIO , KVM_EXIT_IRQ_WINDOW_OPEN , KVM_EXIT_SHUTDOWN ,
    KVM_EXIT_FAIL_ENTRY , KVM_EXIT_INTR , KVM_EXIT_SET_TPR ,
    KVM_EXIT_TPR_ACCESS , KVM_EXIT_S390_SIEIC , KVM_EXIT_S390_RESET ,
    KVM_EXIT_DCR , KVM_EXIT_NMI , KVM_EXIT_INTERNAL_ERROR , KVM_EXIT_OSI ,
    KVM_EXIT_PAPR_HCALL , KVM_EXIT_S390_UCONTROL , KVM_EXIT_WATCHDOG ,
    KVM_EXIT_S390_TSCH , KVM_EXIT_EPR , KVM_EXIT_SYSTEM_EVENT ,
    List.mem_cons, List.mem_singleton, List.not_mem_nil, or_false]
  omega

/-- C1: for every successful resume whose control block carries the I/O tag,
`run` returns IoIn when the embedded direction field is the in-direction and
IoOut when it is the out-direction, the returned byte view starting at the
embedded data offset of the mapped block and having length count × size; for
a block carrying the MMIO tag (with the length within the inline buffer, so
that decoding succeeds), `run` returns MmioWrite when the embedded is-write
field is nonzero and MmioRead when it is zero, the view being the inline data
buffer truncated to the embedded length field. -/
theorem run_decodes_io_and_mmio (errno : Nat) (r : KvmRun) :
    (r.exit_reason = KVM_EXIT_IO →
      (r.io.direction = KVM_EXIT_IO_IN →
        run 0 errno r = .ok (.IoIn r.io.port r.io.data_offset (r.io.count * r.io.size))) ∧
      (r.io.direction = KVM_EXIT_IO_OUT →
        run 0 errno r = .ok (.IoOut r.io.port r.io.data_offset (r.io.count * r.io.size)))) ∧
    (r.exit_reason = KVM_EXIT_MMIO → r.mmio.len ≤ r.mmio.data.length →
      (r.mmio.is_write ≠ 0 →
        run 0 errno r = .ok (.MmioWrite r.mmio.phys_addr (r.mmio.data.take r.mmio.len))) ∧
      (r.mmio.is_write = 0 →
        run 0 errno r = .ok (.MmioRead r.mmio.phys_addr (r.mmio.data.take r.mmio.len)))) := by
  constructor
  · intro htag
    constructor
    · intro hd
      simp only [run, htag, hd, if_pos rfl]
      norm_num [ KVM_EXIT_IO , KVM_EXIT_IO_IN ]
    · intro hd
      simp only [run, htag, hd, if_pos rfl]
      norm_num [ KVM_EXIT_IO , KVM_EXIT_IO_IN , KVM_EXIT_IO_OUT ]
  · intro htag hlen
    constructor
    · intro hw
      simp only [run, htag, if_pos rfl, if_pos hlen,
        if_neg (show ¬ KVM_EXIT_MMIO = KVM_EXIT_IO by decide), if_pos hw]
      simp
    · intro hw
      simp only [run, htag, hw, if_pos rfl, if_pos hlen,
        if_neg (show ¬ KVM_EXIT_MMIO = KVM_EXIT_IO by decide)]
      simp

/-- C2 counterexample: the I/O tag is a known tag of the table, yet on a
control block carrying it with direction field 2 `run` returns the EINVAL
OsError and no Ok variant, refuting the claim that every known tag yields
Ok with the corresponding variant. -/
theorem run_known_tag_without_ok :
    KVM_EXIT_IO ∈ knownExitTags ∧
    ioBadDirRun.exit_reason = KVM_EXIT_IO ∧
    run 0 0 ioBadDirRun = .osError EINVAL ∧
    (run 0 0 ioBadDirRun).isOk = false := by
  decide

/-- C2 (amended): for every run() call in which the OS-level resume request
succeeds but the exit tag is outside the known set, `run` raises the
unrecoverable panic and never converts this case into a normal OsError
result; every known tag of the table yields Ok with the corresponding
variant, stated tag by tag, provided the payload is decodable (for the I/O
tag the direction is the in- or out-direction, selecting IoIn or IoOut, and
for the MMIO tag the length is within the inline buffer, is_write selecting
MmioWrite or MmioRead). -/
theorem run_exit_tag_dispatch (errno : Nat) (r : KvmRun) :
    (r.exit_reason ∉ knownExitTags → run 0 errno r = .abort) ∧
    (r.exit_reason = KVM_EXIT_IO → r.io.direction = KVM_EXIT_IO_IN →
      run 0 errno r = .ok (.IoIn r.io.port r.io.data_offset (r.io.count * r.io.size))) ∧
    (r.exit_reason = KVM_EXIT_IO → r.io.direction = KVM_EXIT_IO_OUT →
      run 0 errno r = .ok (.IoOut r.io.port r.io.data_offset (r.io.count * r.io.size))) ∧
    (r.exit_reason = KVM_EXIT_MMIO → r.mmio.len ≤ r.mmio.data.length →
      r.mmio.is_write ≠ 0 →
      run 0 errno r = .ok (.MmioWrite r.mmio.phys_addr (r.mmio.data.take r.mmio.len))) ∧
    (r.exit_reason = KVM_EXIT_MMIO → r.mmio.len ≤ r.mmio.data.length →
      r.mmio.is_write = 0 →
      run 0 errno r = .ok (.MmioRead r.mmio.phys_addr (r.mmio.data.take r.mmio.len))) ∧
    (r.exit_reason = KVM_EXIT_UNKNOWN → run 0 errno r = .ok .Unknown) ∧
    (r.exit_reason = KVM_EXIT_EXCEPTION → run 0 errno r = .ok .Exception) ∧
    (r.exit_reason = KVM_EXIT_HYPERCALL → run 0 errno r = .ok .Hypercall) ∧
    (r.exit_reason = KVM_EXIT_DEBUG → run 0 errno r = .ok .Debug) ∧
    (r.exit_reason = KVM_EXIT_HLT → run 0 errno r = .ok .Hlt) ∧
    (r.exit_reason = KVM_EXIT_IRQ_WINDOW_OPEN → run 0 errno r = .ok .IrqWindowOpen) ∧
    (r.exit_reason = KVM_EXIT_SHUTDOWN → run 0 errno r = .ok .Shutdown) ∧
    (r.exit_reason = KVM_EXIT_FAIL_ENTRY → run 0 errno r = .ok .FailEntry) ∧
    (r.exit_reason = KVM_EXIT_INTR → run 0 errno r = .ok .Intr) ∧
    (r.exit_reason = KVM_EXIT_SET_TPR → run 0 errno r = .ok .SetTpr) ∧
    (r.exit_reason = KVM_EXIT_TPR_ACCESS → run 0 errno r = .ok .TprAccess) ∧
    (r.exit_reason = KVM_EXIT_S390_SIEIC → run 0 errno r = .ok .S390Sieic) ∧
    (r.exit_reason = KVM_EXIT_S390_RESET → run 0 errno r = .ok .S390Reset) ∧
    (r.exit_reason = KVM_EXIT_DCR → run 0 errno r = .ok .Dcr) ∧
    (r.exit_reason = KVM_EXIT_NMI → run 0 errno r = .ok .Nmi) ∧
    (r.exit_reason = KVM_EXIT_INTERNAL_ERROR → run 0 errno r = .ok .InternalError) ∧
    (r.exit_reason = KVM_EXIT_OSI → run 0 errno r = .ok .Osi) ∧
    (r.exit_reason = KVM_EXIT_PAPR_HCALL → run 0 errno r = .ok .PaprHcall) ∧
    (r.exit_reason = KVM_EXIT_S390_UCONTROL → run 0 errno r = .ok .S390Ucontrol) ∧
    (r.exit_reason = KVM_EXIT_WATCHDOG → run 0 errno r = .ok .Watchdog) ∧
    (r.exit_reason = KVM_EXIT_S390_TSCH → run 0 errno r = .ok .S390Tsch) ∧
    (r.exit_reason = KVM_EXIT_EPR → run 0 errno r = .ok .Epr) ∧
    (r.exit_reason = KVM_EXIT_SYSTEM_EVENT → run 0 errno r = .ok .SystemEvent) := by
  repeat' apply And.intro
  · intro h
    rw [mem_knownExitTags_iff, not_lt] at h
    have ne : ∀ k : Nat, k < 25 → ¬ r.exit_reason = k := fun k hk he => by omega
    simp [run, ne 0 (by decide), ne 1 (by decide), ne 2 (by decide),
      ne 3 (by decide), ne 4 (by decide), ne 5 (by decide), ne 6 (by decide),
      ne 7 (by decide), ne 8 (by decide), ne 9 (by decide), ne 10 (by decide),
      ne 11 (by decide), ne 12 (by decide), ne 13 (by decide), ne 14 (by decide),
      ne 15 (by decide), ne 16 (by decide), ne 17 (by decide), ne 18 (by decide),
      ne 19 (by decide), ne 20 (by decide), ne 21 (by decide), ne 22 (by decide),
      ne 23 (by decide), ne 24 (by decide)]
  all_goals intros
  all_goals simp_all [run]

/-- C9: when the control block carries the I/O tag but the embedded direction
field is neither the in-direction nor the out-direction, `run` returns a
normal error result carrying the invalid-argument OS code EINVAL — a
recoverable error rather than a panic. -/
theorem run_io_unknown_direction (errno : Nat) (r : KvmRun)
    (htag : r.exit_reason = KVM_EXIT_IO)
    (hin : r.io.direction ≠ KVM_EXIT_IO_IN)
    (hout : r.io.direction ≠ KVM_EXIT_IO_OUT) :
    run 0 errno r = .osError EINVAL := by
  have ht : r.exit_reason = 2 := htag
  have h0 : ¬ r.io.direction = 0 := hin
  have h1 : ¬ r.io.direction = 1 := hout
  simp [run, ht, h0, h1]

/-- C9 witness: on the sample block with the I/O tag and direction field 2,
`run` returns the EINVAL OsError. -/
theorem run_io_unknown_direction_witness :
    run 0 0 ioBadDirRun = .osError EINVAL :=
  run_io_unknown_direction 0 ioBadDirRun (by decide) (by decide) (by decide)

/-- C10: decoding an MMIO-tagged exit is total exactly under the precondition
that the embedded length field does not exceed the size of the fixed inline
data buffer: within that bound the slice-taking operation cannot fail and
`run` returns a normal Ok result, while a length beyond the buffer is not
clamped to the buffer's capacity and the slice panics. -/
theorem run_mmio_len_bound (errno : Nat) (r : KvmRun)
    (htag : r.exit_reason = KVM_EXIT_MMIO) :
    (r.mmio.len ≤ r.mmio.data.length → (run 0 errno r).isOk = true) ∧
    (r.mmio.data.length < r.mmio.len → run 0 errno r = .abort) := by
  have ht : r.exit_reason = 6 := htag
  constructor
  · intro hlen
    by_cases hw : r.mmio.is_write = 0 <;> simp [run, ht, hlen, hw, RunOutcome.isOk]
  · intro hlen
    have hn : ¬ r.mmio.len ≤ r.mmio.data.length := by omega
    simp [run, ht, hn]

/-- C10 witness: the sample MMIO write of 2 bytes decodes to a normal Ok
result, while the sample block whose length field is 9 (beyond the 8-byte
inline buffer) panics. -/
theorem run_mmio_len_bound_witness :
    (run 0 0 mmioWriteRun).isOk = true ∧ run 0 0 mmioLongRun = .abort :=
  ⟨(run_mmio_len_bound 0 mmioWriteRun (by decide)).1 (by decide),
   (run_mmio_len_bound 0 mmioLongRun (by decide)).2 (by decide)⟩
